import Mathlib

/-!
# oxenstored C stubs: memory mapping and event channels

A shallow embedding of `mmap/xenmmap_stubs.c` and
`ocaml-evtchn/lib/eventchn_stubs.c`.

The stubs are wrappers around host calls (`mmap`, `munmap`, `xenevtchn_*`,
`perror`).  The host is a parameter of every stub: it decides the return value
of each call and the value of `errno` afterwards, and may depend on every call
made before.  The process state (`World`) is passed explicitly: the host calls
made so far with their results, `errno`, the lines written to standard error
and the global `global_xce`.

Integer arguments are OCaml integers, which the stubs unbox with `Int_val`, a
cast to the 32-bit C int.  A `Bool` stands for `Bool_val (x)`, a `Ptr` for
`_H (x)`.  The host also decides the `errno` that `perror` leaves, which is the
one the event-channel stubs read for their error message.
-/

namespace Oxenstored

/-! ## The host interface -/

/-- A native pointer (`void *`, `xenevtchn_handle *`), as its address. -/
abbrev Ptr := Nat

/-- The null pointer. -/
def NULL : Ptr := 0

/-- The failure value of mmap in sys/mman.h, `((void *) -1)`, on 64-bit addresses. -/
def MAP_FAILED : Ptr := 2 ^ 64 - 1

/-- Page protection bit of sys/mman.h (Linux value). -/
def PROT_READ : Nat := 1

/-- Page protection bit of sys/mman.h (Linux value). -/
def PROT_WRITE : Nat := 2

/-- Mapping flag of sys/mman.h (Linux value). -/
def MAP_SHARED : Nat := 1

/-- Mapping flag of sys/mman.h (Linux value). -/
def MAP_PRIVATE : Nat := 2

/-- The flag of eventchn_stubs.c line 37: `(1 << 0)`. -/
def XENEVTCHN_NO_CLOEXEC : Nat := 1 <<< 0

/-- The least C int (limits.h, 32-bit int). -/
def INT_MIN : Int := -2147483648

/-- The greatest C int (limits.h, 32-bit int). -/
def INT_MAX : Int := 2147483647

/-- The OCaml integer is in the range of the C int. -/
def fits_int (x : Int) : Prop := INT_MIN ≤ x ∧ x ≤ INT_MAX

instance (x : Int) : Decidable (fits_int x) := by
  unfold fits_int
  infer_instance

/-- The macro of caml/mlvalues.h, `((int) Long_val (x))`, on the OCaml integer
`x`: the cast of the 63-bit integer to the 32-bit C int keeps the low 32 bits,
read in two's complement. -/
def Int_val (x : Int) : Int := (x + 2147483648) % 4294967296 - 2147483648

/-- A call of a host function, with the arguments the stub passes. -/
inductive HostCall where
  | mmap (addr : Ptr) (length : Nat) (prot flags : Nat) (fd offset : Int)
  | munmap (addr : Ptr) (len : Nat)
  | xenevtchn_open (logger : Ptr) (flags : Nat)
  | xenevtchn_fd (xce : Ptr)
  | xenevtchn_notify (xce : Ptr) (port : Int)
  | xenevtchn_bind_interdomain (xce : Ptr) (domid remote_port : Int)
  | xenevtchn_bind_unbound_port (xce : Ptr) (domid : Int)
  | xenevtchn_bind_virq (xce : Ptr) (virq : Int)
  | xenevtchn_unbind (xce : Ptr) (port : Int)
  | xenevtchn_pending (xce : Ptr)
  | xenevtchn_unmask (xce : Ptr) (port : Int)
  deriving DecidableEq, Repr

/-- What a host call returned: a pointer (mmap, xenevtchn_open) or an int. -/
inductive Ret where
  | ptr (p : Ptr)
  | int (n : Int)
  deriving DecidableEq, Repr

/-- One host call that was made, with its result. -/
structure Event where
  call : HostCall
  ret : Ret
  deriving DecidableEq, Repr

/-- The host: the result of each call and the `errno` it leaves, both as a
function of the calls made before; the `errno` that `perror (s)` leaves, as a
function of the calls made before, the `errno` before it and `s`; and the
message table of `strerror`. -/
structure Host where
  ptr_ret : List Event → HostCall → Ptr
  int_ret : List Event → HostCall → Int
  errno : List Event → Int → HostCall → Int
  perror_errno : List Event → Int → String → Int
  strerror : Int → String

/-- The process state the stubs read and write. -/
structure World where
  /-- The host calls made so far, oldest first. -/
  trace : List Event
  errno : Int
  /-- The lines written to standard error, oldest first. -/
  stderr : List String
  /-- The global of eventchn_stubs.c line 39. -/
  global_xce : Ptr
  deriving DecidableEq, Repr

/-- The state of a fresh process: `global_xce = NULL`, nothing called or written. -/
def World.init : World :=
  { trace := [], errno := 0, stderr := [], global_xce := NULL }

/-- A call of a host function that returns a pointer. -/
def World.call_ptr (host : Host) (w : World) (c : HostCall) : Ptr × World :=
  (host.ptr_ret w.trace c,
   { w with trace := w.trace ++ [⟨c, .ptr (host.ptr_ret w.trace c)⟩],
            errno := host.errno w.trace w.errno c })

/-- A call of a host function that returns an int. -/
def World.call_int (host : Host) (w : World) (c : HostCall) : Int × World :=
  (host.int_ret w.trace c,
   { w with trace := w.trace ++ [⟨c, .int (host.int_ret w.trace c)⟩],
            errno := host.errno w.trace w.errno c })

/-- The libc `perror (s)`: one line on standard error, `s`, a colon and the
message of the current `errno`; the `errno` it leaves is the host's. -/
def perror (host : Host) (w : World) (s : String) : World :=
  { w with stderr := w.stderr ++ [s ++ ": " ++ host.strerror w.errno],
           errno := host.perror_errno w.trace w.errno s }

/-- The OCaml exceptions the stubs raise. -/
inductive CamlExn where
  /-- Raised by `caml_invalid_argument (msg)`. -/
  | Invalid_argument (msg : String)
  /-- Raised by `uerror (fn, Nothing)`: carries `errno`. -/
  | Unix_error (errno : Int) (fn : String)
  /-- Raised by `caml_failwith (msg)`. -/
  | Failure (msg : String)
  deriving DecidableEq, Repr

/-- The OCaml values the event-channel stubs return. -/
inductive value where
  | Val_unit
  | Val_int (n : Int)
  | tuple2 (field0 field1 : value)
  deriving DecidableEq, Repr

/-! ## mmap/xenmmap_stubs.c -/

/-- The struct of mmap_stubs.h that the abstract block holds. -/
structure mmap_interface where
  addr : Ptr
  len : Nat
  deriving DecidableEq, Repr

/-- Lines 37-47. The allocation of the block is taken to succeed. -/
def stub_mmap_alloc (addr : Ptr) (len : Nat) : mmap_interface :=
  { addr := addr, len := len }

/-- Lines 58-71: the switch, on the value `Int_val (pflag)` it is given. -/
def switch_pflag (pflag : Int) : Except CamlExn Nat :=
  if pflag = 0 then .ok PROT_READ
  else if pflag = 1 then .ok PROT_WRITE
  else if pflag = 2 then .ok (PROT_READ ||| PROT_WRITE)
  else .error (.Invalid_argument "protectiontype")

/-- Lines 73-83: the switch, on the value `Int_val (mflag)` it is given. -/
def switch_mflag (mflag : Int) : Except CamlExn Nat :=
  if mflag = 0 then .ok MAP_SHARED
  else if mflag = 1 then .ok MAP_PRIVATE
  else .error (.Invalid_argument "maptype")

/-- Lines 49-101, on the OCaml integers `fd`, `pflag`, `mflag`, `len` and
`offset`. `length = Int_val (len)` converts a non-negative int to size_t, which
keeps its value, as does the conversion of `Int_val (offset)` to off_t. -/
def stub_mmap_init (host : Host) (w : World) (fd pflag mflag len offset : Int) :
    Except CamlExn mmap_interface × World :=
  match switch_pflag (Int_val pflag) with
  | .error e => (.error e, w)
  | .ok c_pflag =>
    match switch_mflag (Int_val mflag) with
    | .error e => (.error e, w)
    | .ok c_mflag =>
      if Int_val len < 0 then (.error (.Invalid_argument "negative size"), w)
      else if Int_val offset < 0 then (.error (.Invalid_argument "negative offset"), w)
      else
        let length : Nat := (Int_val len).toNat
        let r := w.call_ptr host (.mmap NULL length c_pflag c_mflag (Int_val fd) (Int_val offset))
        if MAP_FAILED = r.1 then (.error (.Unix_error r.2.errno "mmap"), r.2)
        else (.ok (stub_mmap_alloc r.1 length), r.2)

/-- Lines 103-113. The handle is mutated in place: the new handle is returned
next to the (unit) result. -/
def stub_mmap_final (host : Host) (w : World) (intf : mmap_interface) :
    (Except CamlExn value × World) × mmap_interface :=
  let w1 := if intf.addr ≠ MAP_FAILED then (w.call_int host (.munmap intf.addr intf.len)).2 else w
  ((.ok .Val_unit, w1), { intf with addr := MAP_FAILED })

/-! ## ocaml-evtchn/lib/eventchn_stubs.c

Ports, domain ids and virq numbers are OCaml integers, passed to the host as
`Int_val` of them. -/

/-- Lines 41-58. -/
def stub_evtchn_init (host : Host) (w : World) (cloexec : Bool) :
    Except CamlExn Ptr × World :=
  let flags : Nat := 0
  let flags := if !cloexec then flags ||| XENEVTCHN_NO_CLOEXEC else flags
  let w1 :=
    if w.global_xce = NULL then
      let r := w.call_ptr host (.xenevtchn_open NULL flags)
      { r.2 with global_xce := r.1 }
    else w
  if w1.global_xce = NULL then (.error (.Failure (host.strerror w1.errno)), w1)
  else (.ok w1.global_xce, w1)

/-- Lines 60-73. -/
def stub_evtchn_fd (host : Host) (w : World) (xce : Ptr) : Except CamlExn value × World :=
  let r := w.call_int host (.xenevtchn_fd xce)
  let fd := r.1
  if fd = -1 then
    let w2 := perror host r.2 "xc_evtchn_fd"
    (.error (.Failure (host.strerror w2.errno)), w2)
  else (.ok (.Val_int fd), r.2)

/-- Lines 75-86. -/
def stub_evtchn_notify (host : Host) (w : World) (xce : Ptr) (port : Int) :
    Except CamlExn value × World :=
  let r := w.call_int host (.xenevtchn_notify xce (Int_val port))
  if r.1 = -1 then
    let w2 := perror host r.2 "xc_evtchn_notify"
    (.error (.Failure (host.strerror w2.errno)), w2)
  else (.ok .Val_unit, r.2)

/-- Lines 88-103. -/
def stub_evtchn_bind_interdomain (host : Host) (w : World) (xce : Ptr)
    (domid remote_port : Int) : Except CamlExn value × World :=
  let r := w.call_int host (.xenevtchn_bind_interdomain xce (Int_val domid) (Int_val remote_port))
  let rc := r.1
  if rc = -1 then
    let w2 := perror host r.2 "xc_evtchn_bind_interdomain"
    (.error (.Failure (host.strerror w2.errno)), w2)
  else (.ok (.Val_int rc), r.2)

/-- Lines 105-120. -/
def stub_evtchn_alloc_unbound (host : Host) (w : World) (xce : Ptr) (remote_domid : Int) :
    Except CamlExn value × World :=
  let r := w.call_int host (.xenevtchn_bind_unbound_port xce (Int_val remote_domid))
  let rc := r.1
  if rc = -1 then
    let w2 := perror host r.2 "xc_evtchn_bind_unbound_port"
    (.error (.Failure (host.strerror w2.errno)), w2)
  else (.ok (.Val_int rc), r.2)

/-- Lines 129-143. -/
def stub_evtchn_bind_virq (host : Host) (w : World) (xce : Ptr) (virq : Int) :
    Except CamlExn value × World :=
  let r := w.call_int host (.xenevtchn_bind_virq xce (Int_val virq))
  let rc := r.1
  if rc = -1 then
    let w2 := perror host r.2 "xc_evtchn_bind_virq"
    (.error (.Failure (host.strerror w2.errno)), w2)
  else (.ok (.Val_int rc), r.2)

/-- Lines 145-156. -/
def stub_evtchn_unbind (host : Host) (w : World) (xce : Ptr) (port : Int) :
    Except CamlExn value × World :=
  let r := w.call_int host (.xenevtchn_unbind xce (Int_val port))
  if r.1 = -1 then
    let w2 := perror host r.2 "xc_evtchn_unbind"
    (.error (.Failure (host.strerror w2.errno)), w2)
  else (.ok .Val_unit, r.2)

/-- Lines 158-178. The tuple is allocated before the call and filled after it. -/
def stub_evtchn_pending (host : Host) (w : World) (xce : Ptr) : Except CamlExn value × World :=
  let r := w.call_int host (.xenevtchn_pending xce)
  let port := r.1
  if port = -1 then
    let w2 := perror host r.2 "xc_evtchn_pending"
    (.error (.Failure (host.strerror w2.errno)), w2)
  else (.ok (.tuple2 (.Val_int 0) (.Val_int port)), r.2)

/-- Lines 180-191. -/
def stub_evtchn_unmask (host : Host) (w : World) (xce : Ptr) (port : Int) :
    Except CamlExn value × World :=
  let r := w.call_int host (.xenevtchn_unmask xce (Int_val port))
  if r.1 = -1 then
    let w2 := perror host r.2 "xc_evtchn_unmask"
    (.error (.Failure (host.strerror w2.errno)), w2)
  else (.ok .Val_unit, r.2)

/-! ## The eight operations on an event-channel handle, as one family -/

/-- An operation of the event-channel client other than Open, with its
arguments apart from the handle. -/
inductive EvtchnOp where
  | fd
  | notify (port : Int)
  | bind_interdomain (domid remote_port : Int)
  | alloc_unbound (remote_domid : Int)
  | bind_virq (virq : Int)
  | unbind (port : Int)
  | pending
  | unmask (port : Int)
  deriving DecidableEq, Repr

/-- The stub that implements the operation. -/
def EvtchnOp.run (host : Host) (w : World) (xce : Ptr) : EvtchnOp → Except CamlExn value × World
  | .fd => stub_evtchn_fd host w xce
  | .notify port => stub_evtchn_notify host w xce port
  | .bind_interdomain domid remote_port => stub_evtchn_bind_interdomain host w xce domid remote_port
  | .alloc_unbound remote_domid => stub_evtchn_alloc_unbound host w xce remote_domid
  | .bind_virq virq => stub_evtchn_bind_virq host w xce virq
  | .unbind port => stub_evtchn_unbind host w xce port
  | .pending => stub_evtchn_pending host w xce
  | .unmask port => stub_evtchn_unmask host w xce port

/-- The host call the stub of the operation makes on handle `xce`. -/
def EvtchnOp.hostCall (xce : Ptr) : EvtchnOp → HostCall
  | .fd => .xenevtchn_fd xce
  | .notify port => .xenevtchn_notify xce (Int_val port)
  | .bind_interdomain domid remote_port =>
    .xenevtchn_bind_interdomain xce (Int_val domid) (Int_val remote_port)
  | .alloc_unbound remote_domid => .xenevtchn_bind_unbound_port xce (Int_val remote_domid)
  | .bind_virq virq => .xenevtchn_bind_virq xce (Int_val virq)
  | .unbind port => .xenevtchn_unbind xce (Int_val port)
  | .pending => .xenevtchn_pending xce
  | .unmask port => .xenevtchn_unmask xce (Int_val port)

/-- The string the stub of the operation passes to perror. -/
def EvtchnOp.perrorName : EvtchnOp → String
  | .fd => "xc_evtchn_fd"
  | .notify _ => "xc_evtchn_notify"
  | .bind_interdomain _ _ => "xc_evtchn_bind_interdomain"
  | .alloc_unbound _ => "xc_evtchn_bind_unbound_port"
  | .bind_virq _ => "xc_evtchn_bind_virq"
  | .unbind _ => "xc_evtchn_unbind"
  | .pending => "xc_evtchn_pending"
  | .unmask _ => "xc_evtchn_unmask"

/-- A run of Open calls, one per element of `bs`, each on the state the one
before left (whether it raised or not). -/
def run_opens (host : Host) (w : World) : List Bool → World
  | [] => w
  | b :: bs => run_opens host (stub_evtchn_init host w b).2 bs

/-- Whether the event is a host device open that returned a handle. -/
def Event.isOpenSuccess : Event → Bool
  | ⟨.xenevtchn_open _ _, .ptr p⟩ => p ≠ NULL
  | _ => false

/-! ## Definitions the statements use -/

/-- The host call Map makes when it reaches mmap. -/
def mmap_call (fd pflag mflag len offset : Int) : HostCall :=
  .mmap NULL (Int_val len).toNat
    (if Int_val pflag = 0 then PROT_READ else if Int_val pflag = 1 then PROT_WRITE
      else PROT_READ ||| PROT_WRITE)
    (if Int_val mflag = 0 then MAP_SHARED else MAP_PRIVATE) (Int_val fd) (Int_val offset)

/-- The flags Open passes to the host: none for true, XENEVTCHN_NO_CLOEXEC for false. -/
def open_flags (cloexec : Bool) : Nat :=
  if cloexec then 0 else XENEVTCHN_NO_CLOEXEC

/-- The invariant of the singleton: at most one host open has returned a
handle, and none while `global_xce` is null. -/
def open_once (w : World) : Prop :=
  List.countP Event.isOpenSuccess w.trace ≤ 1 ∧
    (w.global_xce = NULL → List.countP Event.isOpenSuccess w.trace = 0)

instance (w : World) : Decidable (open_once w) := by
  unfold open_once
  infer_instance

/-- The value the stub of the operation returns when the host returned `ret`. -/
def EvtchnOp.result : EvtchnOp → Int → value
  | .fd, ret => .Val_int ret
  | .notify _, _ => .Val_unit
  | .bind_interdomain _ _, ret => .Val_int ret
  | .alloc_unbound _, ret => .Val_int ret
  | .bind_virq _, ret => .Val_int ret
  | .unbind _, _ => .Val_unit
  | .pending, ret => .tuple2 (.Val_int 0) (.Val_int ret)
  | .unmask _, _ => .Val_unit

/-! ## Concrete hosts, for evaluation -/

/-- A host on which every call succeeds: pointers are 4096, ints are 3. -/
def hostOk : Host :=
  { ptr_ret := fun _ _ => 4096, int_ret := fun _ _ => 3,
    errno := fun _ e _ => e, perror_errno := fun _ e _ => e, strerror := fun _ => "Success" }

/-- A host on which every call fails with errno 22, which perror keeps. -/
def hostFail : Host :=
  { ptr_ret := fun _ c => match c with
      | .mmap _ _ _ _ _ _ => MAP_FAILED
      | _ => NULL,
    int_ret := fun _ _ => -1,
    errno := fun _ _ _ => 22, perror_errno := fun _ e _ => e,
    strerror := fun _ => "Invalid argument" }

/-- A host on which every call fails with errno 11 and perror leaves errno 22. -/
def hostClobber : Host :=
  { ptr_ret := fun _ c => match c with
      | .mmap _ _ _ _ _ _ => MAP_FAILED
      | _ => NULL,
    int_ret := fun _ _ => -1,
    errno := fun _ _ _ => 11, perror_errno := fun _ _ _ => 22,
    strerror := fun e => if e = 11 then "Resource temporarily unavailable"
      else if e = 22 then "Invalid argument" else "Unknown error" }

/-! ## Memory mapping: Map -/

/-- The cast to the C int keeps an integer that is in the range of the C int. -/
theorem Int_val_of_fits (x : Int) (h : fits_int x) : Int_val x = x := by
  unfold fits_int INT_MIN INT_MAX at h
  unfold Int_val
  omega

/-- The switch on the protection yields a flag exactly on 0, 1 and 2. -/
theorem switch_pflag_ok (pflag : Int) (h : pflag = 0 ∨ pflag = 1 ∨ pflag = 2) :
    switch_pflag pflag = .ok (if pflag = 0 then PROT_READ else if pflag = 1 then PROT_WRITE
      else PROT_READ ||| PROT_WRITE) := by
  rcases h with h | h | h <;> rw [h] <;> rfl

/-- The switch on the protection raises outside 0, 1 and 2. -/
theorem switch_pflag_error (pflag : Int) (h : ¬ (pflag = 0 ∨ pflag = 1 ∨ pflag = 2)) :
    switch_pflag pflag = .error (.Invalid_argument "protectiontype") := by
  simp only [not_or] at h
  simp [switch_pflag, h.1, h.2.1, h.2.2]

/-- The switch on the sharing yields a flag exactly on 0 and 1. -/
theorem switch_mflag_ok (mflag : Int) (h : mflag = 0 ∨ mflag = 1) :
    switch_mflag mflag = .ok (if mflag = 0 then MAP_SHARED else MAP_PRIVATE) := by
  rcases h with h | h <;> rw [h] <;> rfl

/-- The switch on the sharing raises outside 0 and 1. -/
theorem switch_mflag_error (mflag : Int) (h : ¬ (mflag = 0 ∨ mflag = 1)) :
    switch_mflag mflag = .error (.Invalid_argument "maptype") := by
  simp only [not_or] at h
  simp [switch_mflag, h.1, h.2]

/-- When the four unboxed values pass the checks, Map is its host call followed
by the test of the result. -/
theorem stub_mmap_init_valid (host : Host) (w : World) (fd pflag mflag len offset : Int)
    (hp : Int_val pflag = 0 ∨ Int_val pflag = 1 ∨ Int_val pflag = 2)
    (hm : Int_val mflag = 0 ∨ Int_val mflag = 1)
    (hl : 0 ≤ Int_val len) (ho : 0 ≤ Int_val offset) :
    stub_mmap_init host w fd pflag mflag len offset =
      if MAP_FAILED = (w.call_ptr host (mmap_call fd pflag mflag len offset)).1 then
        (.error (.Unix_error (w.call_ptr host (mmap_call fd pflag mflag len offset)).2.errno "mmap"),
          (w.call_ptr host (mmap_call fd pflag mflag len offset)).2)
      else
        (.ok (stub_mmap_alloc (w.call_ptr host (mmap_call fd pflag mflag len offset)).1
            (Int_val len).toNat),
          (w.call_ptr host (mmap_call fd pflag mflag len offset)).2) := by
  unfold stub_mmap_init
  rw [switch_pflag_ok _ hp, switch_mflag_ok _ hm]
  simp only [not_lt.mpr hl, not_lt.mpr ho, if_false, mmap_call]

/-- On every input, Map raises Invalid_argument exactly when one of the four
unboxed values fails its check, and then leaves the process state as it was. -/
theorem stub_mmap_init_rejects (host : Host) (w : World) (fd pflag mflag len offset : Int) :
    ((Int_val len < 0 ∨ Int_val offset < 0 ∨
        ¬ (Int_val pflag = 0 ∨ Int_val pflag = 1 ∨ Int_val pflag = 2) ∨
        ¬ (Int_val mflag = 0 ∨ Int_val mflag = 1)) →
      (∃ msg, (stub_mmap_init host w fd pflag mflag len offset).1
          = .error (.Invalid_argument msg)) ∧
      (stub_mmap_init host w fd pflag mflag len offset).2 = w) ∧
    (¬ (Int_val len < 0 ∨ Int_val offset < 0 ∨
        ¬ (Int_val pflag = 0 ∨ Int_val pflag = 1 ∨ Int_val pflag = 2) ∨
        ¬ (Int_val mflag = 0 ∨ Int_val mflag = 1)) →
      ∀ msg, (stub_mmap_init host w fd pflag mflag len offset).1
          ≠ .error (.Invalid_argument msg)) := by
  constructor
  · intro hbad
    by_cases hp : Int_val pflag = 0 ∨ Int_val pflag = 1 ∨ Int_val pflag = 2
    · by_cases hm : Int_val mflag = 0 ∨ Int_val mflag = 1
      · by_cases hl : Int_val len < 0
        · unfold stub_mmap_init
          rw [switch_pflag_ok _ hp, switch_mflag_ok _ hm]
          simp [hl]
        · have ho : Int_val offset < 0 := by
            rcases hbad with h | h | h | h
            · exact absurd h hl
            · exact h
            · exact absurd hp h
            · exact absurd hm h
          unfold stub_mmap_init
          rw [switch_pflag_ok _ hp, switch_mflag_ok _ hm]
          simp [hl, ho]
      · unfold stub_mmap_init
        rw [switch_pflag_ok _ hp, switch_mflag_error _ hm]
        simp
    · unfold stub_mmap_init
      rw [switch_pflag_error _ hp]
      simp
  · intro hgood msg
    have hl : 0 ≤ Int_val len := not_lt.mp (fun h => hgood (Or.inl h))
    have ho : 0 ≤ Int_val offset := not_lt.mp (fun h => hgood (Or.inr (Or.inl h)))
    have hp : Int_val pflag = 0 ∨ Int_val pflag = 1 ∨ Int_val pflag = 2 :=
      Classical.not_not.mp (fun h => hgood (Or.inr (Or.inr (Or.inl h))))
    have hm : Int_val mflag = 0 ∨ Int_val mflag = 1 :=
      Classical.not_not.mp (fun h => hgood (Or.inr (Or.inr (Or.inr h))))
    rw [stub_mmap_init_valid host w fd pflag mflag len offset hp hm hl ho]
    split <;> simp

/-- C1 as stated fails outside the range of the C int: at length 2147483648,
with the other arguments valid, all four conditions of the claim hold and Map
raises Invalid_argument; at length -4294967296 the length is negative and Map
does not raise but maps 0 bytes. -/
theorem map_rejects_counterexample :
    (¬ ((2147483648 : Int) < 0) ∧
      (stub_mmap_init hostOk World.init 3 2 0 2147483648 0).1 =
        .error (.Invalid_argument "negative size")) ∧
    ((-4294967296 : Int) < 0 ∧
      (stub_mmap_init hostOk World.init 3 2 0 (-4294967296) 0).1 =
        .ok { addr := 4096, len := 0 }) :=
  ⟨⟨by decide, rfl⟩, ⟨by decide, rfl⟩⟩

/-- C1 as amended: when protection, sharing, length and offset are in the range
of the C int, Map raises Invalid_argument whenever the length is negative, the
offset is negative, the protection is outside 0, 1, 2 or the sharing is outside
0, 1, and then leaves the process state as it was (no host call is made); when
none of the four holds, Map does not raise Invalid_argument. -/
theorem map_rejects_invalid_arguments (host : Host) (w : World)
    (fd pflag mflag len offset : Int)
    (hpf : fits_int pflag) (hmf : fits_int mflag) (hlf : fits_int len) (hof : fits_int offset) :
    ((len < 0 ∨ offset < 0 ∨ ¬ (pflag = 0 ∨ pflag = 1 ∨ pflag = 2) ∨ ¬ (mflag = 0 ∨ mflag = 1)) →
      (∃ msg, (stub_mmap_init host w fd pflag mflag len offset).1
          = .error (.Invalid_argument msg)) ∧
      (stub_mmap_init host w fd pflag mflag len offset).2 = w) ∧
    (¬ (len < 0 ∨ offset < 0 ∨ ¬ (pflag = 0 ∨ pflag = 1 ∨ pflag = 2) ∨ ¬ (mflag = 0 ∨ mflag = 1)) →
      ∀ msg, (stub_mmap_init host w fd pflag mflag len offset).1
          ≠ .error (.Invalid_argument msg)) := by
  have h := stub_mmap_init_rejects host w fd pflag mflag len offset
  rw [Int_val_of_fits pflag hpf, Int_val_of_fits mflag hmf, Int_val_of_fits len hlf,
    Int_val_of_fits offset hof] at h
  exact h

/-- C1 as amended, at a negative length with an otherwise valid input. -/
theorem map_rejects_invalid_arguments_witness :
    (∃ msg, (stub_mmap_init hostOk World.init 3 2 0 (-1) 0).1 = .error (.Invalid_argument msg)) ∧
      (stub_mmap_init hostOk World.init 3 2 0 (-1) 0).2 = World.init :=
  (map_rejects_invalid_arguments hostOk World.init 3 2 0 (-1) 0 (by decide) (by decide)
    (by decide) (by decide)).1 (Or.inl (by decide))

/-- C5 as stated fails outside the range of the C int: at the valid length
2147483648 Map makes no host call at all; at fd 4294967299 and length
4294971392 the one mmap call carries fd 3 and length 4096. -/
theorem map_one_mmap_counterexample :
    (stub_mmap_init hostOk World.init 3 2 0 2147483648 0).2.trace = [] ∧
    (stub_mmap_init hostOk World.init 4294967299 2 0 4294971392 0).2.trace =
      [⟨.mmap NULL 4096 (PROT_READ ||| PROT_WRITE) MAP_SHARED 3 0, .ptr 4096⟩] :=
  ⟨rfl, rfl⟩

/-- C5 as amended: on a valid input (protection 0, 1 or 2, sharing 0 or 1,
length and offset not negative) whose five arguments are in the range of the C
int, Map makes exactly one host call, mmap, with a null address hint, the
length, fd and offset it was given, protection PROT_READ, PROT_WRITE or
PROT_READ|PROT_WRITE for 0, 1, 2 and flags exactly MAP_SHARED or MAP_PRIVATE
for 0, 1. -/
theorem map_issues_one_mmap (host : Host) (w : World) (fd pflag mflag len offset : Int)
    (hff : fits_int fd) (hpf : fits_int pflag) (hmf : fits_int mflag)
    (hlf : fits_int len) (hof : fits_int offset)
    (hp : pflag = 0 ∨ pflag = 1 ∨ pflag = 2) (hm : mflag = 0 ∨ mflag = 1)
    (hl : 0 ≤ len) (ho : 0 ≤ offset) :
    (stub_mmap_init host w fd pflag mflag len offset).2.trace =
      w.trace ++ [⟨.mmap NULL len.toNat
        (if pflag = 0 then PROT_READ else if pflag = 1 then PROT_WRITE
          else PROT_READ ||| PROT_WRITE)
        (if mflag = 0 then MAP_SHARED else MAP_PRIVATE) fd offset,
        .ptr (host.ptr_ret w.trace (mmap_call fd pflag mflag len offset))⟩] ∧
    (len.toNat : Int) = len := by
  have ef := Int_val_of_fits fd hff
  have ep := Int_val_of_fits pflag hpf
  have em := Int_val_of_fits mflag hmf
  have el := Int_val_of_fits len hlf
  have eo := Int_val_of_fits offset hof
  refine ⟨?_, Int.toNat_of_nonneg hl⟩
  rw [stub_mmap_init_valid host w fd pflag mflag len offset (by rw [ep]; exact hp)
    (by rw [em]; exact hm) (by rw [el]; exact hl) (by rw [eo]; exact ho)]
  split <;> simp [World.call_ptr, mmap_call, ef, ep, em, el, eo]

/-- C5 as amended, at Map (fd 3, ReadWrite, Shared, 4096, 0) in a fresh
process: one mmap call with PROT_READ|PROT_WRITE and MAP_SHARED. -/
theorem map_issues_one_mmap_witness :
    (stub_mmap_init hostOk World.init 3 2 0 4096 0).2.trace =
      [⟨.mmap NULL 4096 (PROT_READ ||| PROT_WRITE) MAP_SHARED 3 0, .ptr 4096⟩] :=
  (map_issues_one_mmap hostOk World.init 3 2 0 4096 0 (by decide) (by decide) (by decide)
    (by decide) (by decide) (by decide) (by decide) (by decide) (by decide)).1

/-- C6 as stated fails outside the range of the C int: at the valid length
4294971392, the host mmap returning an address, Map returns a handle of length
4096, not of the requested length. -/
theorem map_outcome_counterexample :
    (stub_mmap_init hostOk World.init 3 2 0 4294971392 0).1 =
      .ok { addr := 4096, len := 4096 } ∧
    ((4096 : Nat) : Int) ≠ 4294971392 :=
  ⟨rfl, by decide⟩

/-- C6 as amended: on a valid input whose protection, sharing, length and
offset are in the range of the C int, if the host mmap returns MAP_FAILED then
Map raises Unix_error with the errno the host call left and returns no handle;
otherwise Map returns a handle whose address is the one the host returned, so
not MAP_FAILED, and whose length is the requested one, so not negative. -/
theorem map_outcome_follows_host (host : Host) (w : World) (fd pflag mflag len offset : Int)
    (hpf : fits_int pflag) (hmf : fits_int mflag) (hlf : fits_int len) (hof : fits_int offset)
    (hp : pflag = 0 ∨ pflag = 1 ∨ pflag = 2) (hm : mflag = 0 ∨ mflag = 1)
    (hl : 0 ≤ len) (ho : 0 ≤ offset) :
    (host.ptr_ret w.trace (mmap_call fd pflag mflag len offset) = MAP_FAILED →
      (stub_mmap_init host w fd pflag mflag len offset).1 =
        .error (.Unix_error
          (host.errno w.trace w.errno (mmap_call fd pflag mflag len offset)) "mmap")) ∧
    (host.ptr_ret w.trace (mmap_call fd pflag mflag len offset) ≠ MAP_FAILED →
      ∃ h : mmap_interface,
        (stub_mmap_init host w fd pflag mflag len offset).1 = .ok h ∧
        h.addr = host.ptr_ret w.trace (mmap_call fd pflag mflag len offset) ∧
        (h.len : Int) = len ∧ 0 ≤ (h.len : Int) ∧ h.addr ≠ MAP_FAILED) := by
  have ep := Int_val_of_fits pflag hpf
  have em := Int_val_of_fits mflag hmf
  have el := Int_val_of_fits len hlf
  have eo := Int_val_of_fits offset hof
  rw [stub_mmap_init_valid host w fd pflag mflag len offset (by rw [ep]; exact hp)
    (by rw [em]; exact hm) (by rw [el]; exact hl) (by rw [eo]; exact ho)]
  constructor
  · intro hf
    simp [World.call_ptr, hf]
  · intro hs
    have hs' : ¬ MAP_FAILED = host.ptr_ret w.trace (mmap_call fd pflag mflag len offset) :=
      fun h => hs h.symm
    refine ⟨stub_mmap_alloc (host.ptr_ret w.trace (mmap_call fd pflag mflag len offset))
      (Int_val len).toNat, ?_, rfl, ?_, ?_, hs⟩
    · simp [World.call_ptr, hs']
    · simpa [stub_mmap_alloc, el] using hl
    · simp [stub_mmap_alloc]

/-- C6 as amended, at Map (fd 3, ReadWrite, Shared, 4096, 0) on a host whose
mmap fails with errno 22. -/
theorem map_outcome_follows_host_witness :
    (stub_mmap_init hostFail World.init 3 2 0 4096 0).1 = .error (.Unix_error 22 "mmap") :=
  (map_outcome_follows_host hostFail World.init 3 2 0 4096 0 (by decide) (by decide)
    (by decide) (by decide) (by decide) (by decide) (by decide) (by decide)).1 rfl

/-! ## Memory mapping: Release -/

/-- C7: Release calls the host munmap, over exactly the address and length of
the handle, if and only if the address is not MAP_FAILED; afterwards the
address is MAP_FAILED and the length is what it was; and Release returns unit,
whatever munmap returned. -/
theorem release_unmaps_unless_sentinel (host : Host) (w : World) (intf : mmap_interface) :
    (stub_mmap_final host w intf).1.2.trace =
      (if intf.addr ≠ MAP_FAILED then
        w.trace ++ [⟨.munmap intf.addr intf.len,
          .int (host.int_ret w.trace (.munmap intf.addr intf.len))⟩]
       else w.trace) ∧
    (stub_mmap_final host w intf).2.addr = MAP_FAILED ∧
    (stub_mmap_final host w intf).2.len = intf.len ∧
    (stub_mmap_final host w intf).1.1 = .ok .Val_unit := by
  refine ⟨?_, rfl, rfl, rfl⟩
  unfold stub_mmap_final
  by_cases h : intf.addr = MAP_FAILED <;> simp [h, World.call_int]

/-- C2: Release twice is Release once: the second call returns unit, leaves the
handle as the first call left it and leaves the process state as the first call
left it, so it makes no host call. -/
theorem release_twice_is_release_once (host : Host) (w : World) (intf : mmap_interface) :
    stub_mmap_final host (stub_mmap_final host w intf).1.2 (stub_mmap_final host w intf).2 =
      ((.ok .Val_unit, (stub_mmap_final host w intf).1.2), (stub_mmap_final host w intf).2) ∧
    (stub_mmap_final host (stub_mmap_final host w intf).1.2
      (stub_mmap_final host w intf).2).1.2.trace = (stub_mmap_final host w intf).1.2.trace := by
  have h : stub_mmap_final host (stub_mmap_final host w intf).1.2
      (stub_mmap_final host w intf).2 =
      ((.ok .Val_unit, (stub_mmap_final host w intf).1.2), (stub_mmap_final host w intf).2) := by
    simp [stub_mmap_final]
  exact ⟨h, by rw [h]⟩

/-! ## Event channels: Open -/

/-- Open when a handle exists: returns it, the state is unchanged. -/
theorem stub_evtchn_init_opened (host : Host) (w : World) (cloexec : Bool)
    (h : w.global_xce ≠ NULL) :
    stub_evtchn_init host w cloexec = (.ok w.global_xce, w) := by
  simp [stub_evtchn_init, h]

/-- Open when no handle exists: the state after the call. -/
theorem stub_evtchn_init_state_of_null (host : Host) (w : World) (cloexec : Bool)
    (h : w.global_xce = NULL) :
    (stub_evtchn_init host w cloexec).2 =
      { trace := w.trace ++ [⟨.xenevtchn_open NULL (open_flags cloexec),
          .ptr (host.ptr_ret w.trace (.xenevtchn_open NULL (open_flags cloexec)))⟩],
        errno := host.errno w.trace w.errno (.xenevtchn_open NULL (open_flags cloexec)),
        stderr := w.stderr,
        global_xce := host.ptr_ret w.trace (.xenevtchn_open NULL (open_flags cloexec)) } := by
  cases cloexec <;> simp [stub_evtchn_init, h, World.call_ptr, open_flags] <;> split <;> rfl

/-- Open decides its result on the `global_xce` it leaves. -/
theorem stub_evtchn_init_post (host : Host) (w : World) (cloexec : Bool) :
    stub_evtchn_init host w cloexec =
      (if (stub_evtchn_init host w cloexec).2.global_xce = NULL then
        (.error (.Failure (host.strerror (stub_evtchn_init host w cloexec).2.errno)),
          (stub_evtchn_init host w cloexec).2)
       else (.ok (stub_evtchn_init host w cloexec).2.global_xce,
          (stub_evtchn_init host w cloexec).2)) := by
  have key : ∀ w1 : World,
      (if w1.global_xce = NULL then
        ((.error (.Failure (host.strerror w1.errno)) : Except CamlExn Ptr), w1)
       else (.ok w1.global_xce, w1)).2 = w1 := by
    intro w1
    split <;> rfl
  unfold stub_evtchn_init
  simp only [key]

/-- A successful Open leaves the handle it returns in `global_xce`, not null. -/
theorem stub_evtchn_init_ok (host : Host) (w : World) (cloexec : Bool) (p : Ptr)
    (h : (stub_evtchn_init host w cloexec).1 = .ok p) :
    (stub_evtchn_init host w cloexec).2.global_xce = p ∧ p ≠ NULL := by
  rw [stub_evtchn_init_post host w cloexec] at h
  by_cases hg : (stub_evtchn_init host w cloexec).2.global_xce = NULL
  · rw [if_pos hg] at h
    simp at h
  · rw [if_neg hg] at h
    simp only [Except.ok.injEq] at h
    exact ⟨h, h ▸ hg⟩

/-- Open keeps the invariant of the singleton. -/
theorem stub_evtchn_init_open_once (host : Host) (w : World) (cloexec : Bool)
    (hw : open_once w) : open_once (stub_evtchn_init host w cloexec).2 := by
  by_cases h : w.global_xce = NULL
  · rw [stub_evtchn_init_state_of_null host w cloexec h]
    have h0 := hw.2 h
    by_cases hp : host.ptr_ret w.trace (.xenevtchn_open NULL (open_flags cloexec)) = NULL
    · simp [open_once, List.countP_append, h0, Event.isOpenSuccess, hp]
    · simp [open_once, List.countP_append, h0, Event.isOpenSuccess, hp]
  · rw [stub_evtchn_init_opened host w cloexec h]
    exact hw

/-- A run of Open calls keeps the invariant of the singleton. -/
theorem run_opens_open_once (host : Host) (bs : List Bool) :
    ∀ w : World, open_once w → open_once (run_opens host w bs) := by
  induction bs with
  | nil => intro w hw; exact hw
  | cons b bs ih =>
    intro w hw
    exact ih _ (stub_evtchn_init_open_once host w b hw)

/-- C3: if Open (b1) returned handle h, the next Open (b2) returns h and leaves
the process state, so the global handle and the host calls made, as it was: no
host open is made. Hence in any run of Open calls of a fresh process at most one
host open returns a handle. -/
theorem open_is_singleton (host : Host) (w : World) (b1 b2 : Bool) (h : Ptr) :
    ((stub_evtchn_init host w b1).1 = .ok h →
      stub_evtchn_init host (stub_evtchn_init host w b1).2 b2 =
        (.ok h, (stub_evtchn_init host w b1).2)) ∧
    (∀ bs : List Bool,
      List.countP Event.isOpenSuccess (run_opens host World.init bs).trace ≤ 1) := by
  constructor
  · intro hok
    obtain ⟨hg, hne⟩ := stub_evtchn_init_ok host w b1 h hok
    rw [stub_evtchn_init_opened host _ b2 (hg ▸ hne), hg]
  · intro bs
    exact (run_opens_open_once host bs World.init ⟨by decide, fun _ => by decide⟩).1

/-- C3, at Open (false) then Open (true) in a fresh process. -/
theorem open_is_singleton_witness :
    stub_evtchn_init hostOk (stub_evtchn_init hostOk World.init false).2 true =
      (.ok 4096, (stub_evtchn_init hostOk World.init false).2) :=
  (open_is_singleton hostOk World.init false true 4096).1 rfl

/-- C9: Open with no handle yet makes exactly one host call, xenevtchn_open,
with flags 0 for argument true and exactly XENEVTCHN_NO_CLOEXEC for false; if
the host returns null, Open raises and `global_xce` stays null; otherwise Open
returns the host handle and `global_xce` holds it. The error is Failure with
the message of the errno the host call left. -/
theorem open_first_call (host : Host) (w : World) (cloexec : Bool)
    (hw : w.global_xce = NULL) :
    (stub_evtchn_init host w cloexec).2.trace =
      w.trace ++ [⟨.xenevtchn_open NULL (if cloexec then 0 else XENEVTCHN_NO_CLOEXEC),
        .ptr (host.ptr_ret w.trace
          (.xenevtchn_open NULL (if cloexec then 0 else XENEVTCHN_NO_CLOEXEC)))⟩] ∧
    (host.ptr_ret w.trace
        (.xenevtchn_open NULL (if cloexec then 0 else XENEVTCHN_NO_CLOEXEC)) = NULL →
      (stub_evtchn_init host w cloexec).1 = .error (.Failure (host.strerror
        (host.errno w.trace w.errno
          (.xenevtchn_open NULL (if cloexec then 0 else XENEVTCHN_NO_CLOEXEC))))) ∧
      (stub_evtchn_init host w cloexec).2.global_xce = NULL) ∧
    (host.ptr_ret w.trace
        (.xenevtchn_open NULL (if cloexec then 0 else XENEVTCHN_NO_CLOEXEC)) ≠ NULL →
      (stub_evtchn_init host w cloexec).1 = .ok (host.ptr_ret w.trace
        (.xenevtchn_open NULL (if cloexec then 0 else XENEVTCHN_NO_CLOEXEC))) ∧
      (stub_evtchn_init host w cloexec).2.global_xce = host.ptr_ret w.trace
        (.xenevtchn_open NULL (if cloexec then 0 else XENEVTCHN_NO_CLOEXEC))) := by
  have hs := stub_evtchn_init_state_of_null host w cloexec hw
  simp only [open_flags] at hs
  refine ⟨by rw [hs], ?_, ?_⟩
  · intro hp
    have hg : (stub_evtchn_init host w cloexec).2.global_xce = NULL := by rw [hs]; exact hp
    refine ⟨?_, hg⟩
    rw [stub_evtchn_init_post host w cloexec, if_pos hg, hs]
  · intro hp
    have hg : (stub_evtchn_init host w cloexec).2.global_xce = host.ptr_ret w.trace
        (.xenevtchn_open NULL (if cloexec then 0 else XENEVTCHN_NO_CLOEXEC)) := by rw [hs]
    refine ⟨?_, hg⟩
    rw [stub_evtchn_init_post host w cloexec, if_neg (hg ▸ hp), hg]

/-- C9, at Open (false) in a fresh process: the one host call carries the flag. -/
theorem open_first_call_witness :
    (stub_evtchn_init hostOk World.init false).2.trace =
      World.init.trace ++ [⟨.xenevtchn_open NULL (if false then 0 else XENEVTCHN_NO_CLOEXEC),
        .ptr (hostOk.ptr_ret World.init.trace
          (.xenevtchn_open NULL (if false then 0 else XENEVTCHN_NO_CLOEXEC)))⟩] :=
  (open_first_call hostOk World.init false rfl).1

/-! ## Event channels: the operations on a handle -/

/-- Each of the eight stubs is one host call on the handle it was given,
followed, when the host returned -1, by perror and caml_failwith on the message
of the errno perror left. -/
theorem EvtchnOp.run_eq (host : Host) (w : World) (xce : Ptr) (op : EvtchnOp) :
    op.run host w xce =
      if host.int_ret w.trace (op.hostCall xce) = -1 then
        (.error (.Failure (host.strerror (host.perror_errno
            (w.trace ++ [⟨op.hostCall xce, .int (host.int_ret w.trace (op.hostCall xce))⟩])
            (host.errno w.trace w.errno (op.hostCall xce)) op.perrorName))),
          { trace := w.trace ++ [⟨op.hostCall xce, .int (host.int_ret w.trace (op.hostCall xce))⟩],
            errno := host.perror_errno
              (w.trace ++ [⟨op.hostCall xce, .int (host.int_ret w.trace (op.hostCall xce))⟩])
              (host.errno w.trace w.errno (op.hostCall xce)) op.perrorName,
            stderr := w.stderr ++ [op.perrorName ++ ": " ++
              host.strerror (host.errno w.trace w.errno (op.hostCall xce))],
            global_xce := w.global_xce })
      else
        (.ok (op.result (host.int_ret w.trace (op.hostCall xce))),
          { trace := w.trace ++ [⟨op.hostCall xce, .int (host.int_ret w.trace (op.hostCall xce))⟩],
            errno := host.errno w.trace w.errno (op.hostCall xce),
            stderr := w.stderr,
            global_xce := w.global_xce }) := by
  cases op <;>
    simp only [EvtchnOp.run, EvtchnOp.hostCall, EvtchnOp.perrorName, EvtchnOp.result,
      stub_evtchn_fd, stub_evtchn_notify, stub_evtchn_bind_interdomain,
      stub_evtchn_alloc_unbound, stub_evtchn_bind_virq, stub_evtchn_unbind,
      stub_evtchn_pending, stub_evtchn_unmask, World.call_int, perror]

/-- C4 as amended: on a null handle each of the eight operations makes no
check: it makes its host call once, with the null handle, raises if and only if
the host returned -1, and then raises Failure with the message of the errno
current when it raises (the one perror left). -/
theorem ops_on_null_handle_call_host (host : Host) (w : World) (op : EvtchnOp) :
    (op.run host w NULL).2.trace =
      w.trace ++ [⟨op.hostCall NULL, .int (host.int_ret w.trace (op.hostCall NULL))⟩] ∧
    ((∃ e, (op.run host w NULL).1 = .error e) ↔
      host.int_ret w.trace (op.hostCall NULL) = -1) ∧
    (∀ e, (op.run host w NULL).1 = .error e →
      e = .Failure (host.strerror (op.run host w NULL).2.errno)) := by
  rw [EvtchnOp.run_eq host w NULL op]
  by_cases hp : host.int_ret w.trace (op.hostCall NULL) = -1
  · simp only [hp, if_true, true_and, iff_true]
    refine ⟨⟨_, rfl⟩, ?_⟩
    intro e he
    simp only [Except.error.injEq] at he
    exact he.symm
  · simp [hp]

/-- C4 as stated fails: FileDescriptor on the null handle of a fresh process
makes the host call xenevtchn_fd (NULL) and, the host returning 3, returns 3:
it does not fail, and a host call was made. -/
theorem ops_not_opened_counterexample :
    (EvtchnOp.fd.run hostOk World.init NULL).1 = .ok (.Val_int 3) ∧
    (EvtchnOp.fd.run hostOk World.init NULL).2.trace = [⟨.xenevtchn_fd NULL, .int 3⟩] ∧
    ¬ ((∃ e, (EvtchnOp.fd.run hostOk World.init NULL).1 = .error e) ∧
        (EvtchnOp.fd.run hostOk World.init NULL).2.trace = World.init.trace) := by
  refine ⟨rfl, rfl, ?_⟩
  rintro ⟨-, h⟩
  exact absurd h (by decide)

/-- C4 as amended, at Notify on the null handle with a host whose call fails
with errno 11 and whose perror leaves errno 22: the message is the one of 22. -/
theorem ops_on_null_handle_call_host_witness :
    (EvtchnOp.run hostClobber World.init NULL (.notify 4)).1 =
      .error (.Failure "Invalid argument") :=
  congrArg _ ((ops_on_null_handle_call_host hostClobber World.init (.notify 4)).2.2 _ rfl)

/-- C10 as amended: each of the eight operations makes its host call exactly
once, raises if and only if the host returned -1, and writes to standard error
exactly then: one perror line, its own name and the message of errno. -/
theorem ops_call_once_and_perror (host : Host) (w : World) (xce : Ptr) (op : EvtchnOp) :
    (op.run host w xce).2.trace =
      w.trace ++ [⟨op.hostCall xce, .int (host.int_ret w.trace (op.hostCall xce))⟩] ∧
    ((∃ e, (op.run host w xce).1 = .error e) ↔
      host.int_ret w.trace (op.hostCall xce) = -1) ∧
    (op.run host w xce).2.stderr =
      (if host.int_ret w.trace (op.hostCall xce) = -1 then
        w.stderr ++ [op.perrorName ++ ": " ++
          host.strerror (host.errno w.trace w.errno (op.hostCall xce))]
       else w.stderr) := by
  rw [EvtchnOp.run_eq host w xce op]
  by_cases hp : host.int_ret w.trace (op.hostCall xce) = -1 <;> simp [hp]

/-- C10 as stated fails: Notify, the host returning -1, writes a line to
standard error before it raises. -/
theorem ops_silent_counterexample :
    hostFail.int_ret World.init.trace (.xenevtchn_notify 4096 4) = -1 ∧
    (EvtchnOp.run hostFail World.init 4096 (.notify 4)).2.stderr =
      ["xc_evtchn_notify: Invalid argument"] ∧
    (EvtchnOp.run hostFail World.init 4096 (.notify 4)).2.stderr ≠ World.init.stderr := by
  refine ⟨rfl, rfl, ?_⟩
  intro h
  exact absurd h (by decide)

end Oxenstored
